import Mathlib

/-!
Shallow embedding of `auth.go` from the `spotify` package: an OAuth2
authorization-code-flow helper.  Go strings become `String`, the
`url.Values` query map becomes an association list with Go's
`Values.Get` lookup semantics (first value for the key, `""` when the
key is absent), and the network token exchange performed by the external
`golang.org/x/oauth2` library is abstracted as an explicit oracle
`ex : Config → String → Except String Tok`.  `Authenticator.Token`
additionally returns the number of times the oracle was invoked, so that
"no network call is made" is a provable statement (`.2 = 0`).
-/

namespace Spotify

/-- `AuthURL` constant: the URL to Spotify Accounts Service's OAuth2
endpoint (`auth.go` line 27). -/
def AuthURL : String := "https://accounts.spotify.com/authorize"

/-- `TokenURL` constant: the URL to the Spotify Accounts Service's OAuth2
token endpoint (`auth.go` line 30). -/
def TokenURL : String := "https://accounts.spotify.com/api/token"

/-- The recognized scope string constants (`auth.go` lines 36-67). -/
def ScopePlaylistReadPrivate : String := "playlist-read-private"

def ScopePlaylistModifyPublic : String := "playlist-modify-public"

def ScopePlaylistModifyPrivate : String := "playlist-modify-private"

def ScopePlaylistReadCollaborative : String := "playlist-read-collaborative"

def ScopeUserFollowModify : String := "user-follow-modify"

def ScopeUserFollowRead : String := "user-follow-read"

def ScopeUserLibraryModify : String := "user-library-modify"

def ScopeUserLibraryRead : String := "user-library-read"

def ScopeUserReadPrivate : String := "user-read-private"

def ScopeUserReadEmail : String := "user-read-email"

def ScopeUserReadBirthdate : String := "user-read-birthdate"

/-- `oauth2.Endpoint`: the pair of provider endpoint URLs stored in the
config (`auth.go` lines 100-103). -/
structure Endpoint where
  AuthURL : String
  TokenURL : String
  deriving DecidableEq, Repr

/-- The fields of `oauth2.Config` that `auth.go` reads and writes
(client identifier/secret, redirect URL, scopes, endpoints). -/
structure Config where
  ClientID : String
  ClientSecret : String
  RedirectURL : String
  Scopes : List String
  Endpoint : Endpoint
  deriving DecidableEq, Repr

/-- `oauth2.Token`: an opaque bearer credential produced by the code
exchange; its shape is owned by the external library, modelled by its
documented fields. -/
structure Tok where
  AccessToken : String
  TokenType : String
  RefreshToken : String
  Expiry : Nat
  deriving DecidableEq, Repr

/-- `url.Values`: the query parameters of the callback request, as an
association list (a key may occur several times). -/
abbrev Values : Type := List (String × String)

/-- `url.Values.Get`: the first value associated with the key, or the
empty string when the key is absent. -/
def Values.get (vs : Values) (key : String) : String :=
  match vs with
  | [] => ""
  | (k, v) :: rest => if k = key then v else Values.get rest key

/-- `Authenticator` (`auth.go` lines 82-84): wraps an `oauth2.Config`. -/
structure Authenticator where
  config : Config
  deriving DecidableEq, Repr

/-- `NewAuthenticator` (`auth.go` lines 94-108).  The process environment
variables `SPOTIFY_ID` and `SPOTIFY_SECRET` are passed explicitly as the
first two arguments. -/
def NewAuthenticator (spotifyID spotifySecret redirectURL : String)
    (scopes : List String) : Authenticator :=
  { config :=
      { ClientID := spotifyID
        ClientSecret := spotifySecret
        RedirectURL := redirectURL
        Scopes := scopes
        Endpoint := { AuthURL := AuthURL, TokenURL := TokenURL } } }

/-- `Authenticator.SetAuthInfo` (`auth.go` lines 112-115): overwrites the
client ID and secret key.  The Go method mutates in place; the embedding
returns the updated value. -/
def Authenticator.SetAuthInfo (a : Authenticator)
    (clientID secretKey : String) : Authenticator :=
  { a with config :=
      { a.config with ClientID := clientID, ClientSecret := secretKey } }

/-- Modelled from the spec: `oauth2.Config.AuthCodeURL` is implemented
by the external `golang.org/x/oauth2` library and is not a file of this
repository.  The spec states that building the login URL
"deterministically formats the fixed authorization endpoint with client
identifier, redirect URL, requested scopes, and the caller-supplied
opaque `state` token as query parameters", the scopes concatenated.  The
produced URL is modelled structurally as the endpoint base paired with
its query-parameter list. -/
def Config.AuthCodeURL (c : Config) (state : String) : String × Values :=
  (c.Endpoint.AuthURL,
    [("client_id", c.ClientID),
     ("redirect_uri", c.RedirectURL),
     ("scope", String.intercalate " " c.Scopes),
     ("state", state)])

/-- `Authenticator.AuthURL` (`auth.go` lines 122-124): delegates to
`Config.AuthCodeURL`. -/
def Authenticator.AuthURL (a : Authenticator) (state : String) :
    String × Values :=
  Config.AuthCodeURL a.config state

/-- `Authenticator.Token` (`auth.go` lines 129-143), instrumented: the
second component counts how many times the network exchange oracle `ex`
(standing for `a.config.Exchange`) was invoked. -/
def Authenticator.Token (ex : Config → String → Except String Tok)
    (a : Authenticator) (state : String) (values : Values) :
    Except String Tok × Nat :=
  if Values.get values "error" ≠ "" then
    (Except.error ("spotify: auth failed - " ++ Values.get values "error"), 0)
  else if Values.get values "code" = "" then
    (Except.error "spotify: didn't get access code", 0)
  else if Values.get values "state" ≠ state then
    (Except.error "spotify: redirect state parameter doesn't match", 0)
  else
    (ex a.config (Values.get values "code"), 1)

/-- `Authenticator.Exchange` (`auth.go` lines 147-149): exchanges a
manually supplied access code via `a.config.Exchange`. -/
def Authenticator.Exchange (ex : Config → String → Except String Tok)
    (a : Authenticator) (code : String) : Except String Tok :=
  ex a.config code

/-- A fixed exchange oracle used by concrete witnesses: it answers every
code with a fixed token payload. -/
def stubExchange : Config → String → Except String Tok :=
  fun _ _ => Except.ok { AccessToken := "T1", TokenType := "Bearer",
                         RefreshToken := "", Expiry := 0 }

/-- A sample authenticator used by concrete witnesses. -/
def sampleAuth : Authenticator :=
  NewAuthenticator "client" "secret" "https://app.example/cb" [ScopeUserLibraryRead]

/-- If a key occurs nowhere in the query parameters, `Values.get`
returns the empty string. -/
theorem Values.get_eq_empty_of_not_mem (vs : Values) (key : String)
    (h : ∀ p ∈ vs, p.1 ≠ key) : Values.get vs key = "" := by
  induction vs with
  | nil => rfl
  | cons p rest ih =>
      obtain ⟨k, v⟩ := p
      have hk : k ≠ key := h (k, v) (List.mem_cons_self _ _)
      simp only [Values.get, if_neg hk]
      exact ih fun q hq => h q (List.mem_cons_of_mem _ hq)

/-- Claim C2: `Token` evaluates its checks in the fixed order — provider
`error` parameter first, then missing `code`, then state mismatch, then
the network exchange — short-circuiting and returning the corresponding
error at the first failing check (network counter 0 on every error
branch, 1 on the exchange branch). -/
theorem token_checks_short_circuit_in_order
    (ex : Config → String → Except String Tok) (a : Authenticator)
    (state : String) (vs : Values) :
    (Values.get vs "error" ≠ "" →
      Authenticator.Token ex a state vs =
        (Except.error ("spotify: auth failed - " ++ Values.get vs "error"), 0)) ∧
    (Values.get vs "error" = "" → Values.get vs "code" = "" →
      Authenticator.Token ex a state vs =
        (Except.error "spotify: didn't get access code", 0)) ∧
    (Values.get vs "error" = "" → Values.get vs "code" ≠ "" →
        Values.get vs "state" ≠ state →
      Authenticator.Token ex a state vs =
        (Except.error "spotify: redirect state parameter doesn't match", 0)) ∧
    (Values.get vs "error" = "" → Values.get vs "code" ≠ "" →
        Values.get vs "state" = state →
      Authenticator.Token ex a state vs =
        (ex a.config (Values.get vs "code"), 1)) := by
  refine ⟨?_, ?_, ?_, ?_⟩ <;> intros <;> simp [Authenticator.Token, *]

/-- Claim C3: a non-empty `error` query parameter makes `Token` fail with
the authorization-denied error, whose message includes the provider's
error string, with no network exchange invoked. -/
theorem token_error_param_denied
    (ex : Config → String → Except String Tok) (a : Authenticator)
    (state : String) (vs : Values) (h : Values.get vs "error" ≠ "") :
    Authenticator.Token ex a state vs =
      (Except.error ("spotify: auth failed - " ++ Values.get vs "error"), 0) := by
  simp [Authenticator.Token, h]

/-- Witness for claim C3 at a concrete callback carrying
`error=access_denied` together with a valid code and state. -/
theorem token_error_param_denied_witness :
    Authenticator.Token stubExchange sampleAuth "xyz"
        [("error", "access_denied"), ("code", "ABC"), ("state", "xyz")] =
      (Except.error "spotify: auth failed - access_denied", 0) :=
  token_error_param_denied stubExchange sampleAuth "xyz"
    [("error", "access_denied"), ("code", "ABC"), ("state", "xyz")] (by decide)

/-- Claim C9: on a valid callback (empty `error`, non-empty `code`,
matching `state`), `Token` returns exactly the result of the underlying
token exchange, invoked once — the token unchanged on success and the
exchange's error propagated unchanged on failure. -/
theorem token_valid_propagates_exchange
    (ex : Config → String → Except String Tok) (a : Authenticator)
    (state : String) (vs : Values)
    (he : Values.get vs "error" = "") (hc : Values.get vs "code" ≠ "")
    (hs : Values.get vs "state" = state) :
    Authenticator.Token ex a state vs = (ex a.config (Values.get vs "code"), 1) := by
  simp [Authenticator.Token, he, hc, hs]

/-- Witness for claim C9 at a concrete valid callback with a stub
exchange returning a fixed token. -/
theorem token_valid_propagates_exchange_witness :
    Authenticator.Token stubExchange sampleAuth "xyz"
        [("code", "ABC"), ("state", "xyz")] =
      (Except.ok { AccessToken := "T1", TokenType := "Bearer",
                   RefreshToken := "", Expiry := 0 }, 1) :=
  token_valid_propagates_exchange stubExchange sampleAuth "xyz"
    [("code", "ABC"), ("state", "xyz")] rfl (by decide) rfl

/-- Claim C10: a callback with a non-empty `code`, no `error` key and no
`state` key, checked against the empty expected state, passes the CSRF
check (the absent parameter reads as the empty string) and proceeds to
the network exchange. -/
theorem token_absent_state_empty_expected_proceeds
    (ex : Config → String → Except String Tok) (a : Authenticator)
    (vs : Values) (hc : Values.get vs "code" ≠ "")
    (hne : ∀ p ∈ vs, p.1 ≠ "error") (hns : ∀ p ∈ vs, p.1 ≠ "state") :
    Values.get vs "state" = "" ∧
    Authenticator.Token ex a "" vs = (ex a.config (Values.get vs "code"), 1) := by
  have he := Values.get_eq_empty_of_not_mem vs "error" hne
  have hs := Values.get_eq_empty_of_not_mem vs "state" hns
  exact ⟨hs, by simp [Authenticator.Token, he, hc, hs]⟩

/-- Witness for claim C10 at the concrete callback `code=ABC` with no
other parameters and empty expected state. -/
theorem token_absent_state_empty_expected_proceeds_witness :
    Values.get [("code", "ABC")] "state" = "" ∧
    Authenticator.Token stubExchange sampleAuth "" [("code", "ABC")] =
      (stubExchange sampleAuth.config (Values.get [("code", "ABC")] "code"), 1) :=
  token_absent_state_empty_expected_proceeds stubExchange sampleAuth
    [("code", "ABC")] (by decide) (by decide) (by decide)

/-- Claim C8: `Exchange` performs the identical token-exchange
computation as the final exchange step of `Token` — both invoke the
exchange on the stored config (hence the stored credentials and fixed
token endpoint) with the same code. -/
theorem exchange_eq_token_exchange_step
    (ex : Config → String → Except String Tok) (a : Authenticator)
    (code state : String) (vs : Values)
    (he : Values.get vs "error" = "") (hc : Values.get vs "code" = code)
    (hcode : code ≠ "") (hs : Values.get vs "state" = state) :
    Authenticator.Exchange ex a code = ex a.config code ∧
    Authenticator.Exchange ex a code = (Authenticator.Token ex a state vs).1 := by
  refine ⟨rfl, ?_⟩
  simp [Authenticator.Exchange, Authenticator.Token, he, hc, hcode, hs]

/-- Witness for claim C8 at the concrete code `ABC` and a matching
callback. -/
theorem exchange_eq_token_exchange_step_witness :
    Authenticator.Exchange stubExchange sampleAuth "ABC" =
        stubExchange sampleAuth.config "ABC" ∧
    Authenticator.Exchange stubExchange sampleAuth "ABC" =
      (Authenticator.Token stubExchange sampleAuth "xyz"
        [("code", "ABC"), ("state", "xyz")]).1 :=
  exchange_eq_token_exchange_step stubExchange sampleAuth "ABC" "xyz"
    [("code", "ABC"), ("state", "xyz")] rfl rfl (by decide) rfl

/-- Claim C5: for every configured redirect URL, scope list and state,
the generated login URL points at the fixed authorization endpoint and
its query parameters are exactly the client identifier, the redirect
URL, the concatenated scopes and the given state; no network oracle
appears in the computation. -/
theorem authURL_query_params_exact
    (spotifyID spotifySecret redirectURL state : String) (scopes : List String) :
    (NewAuthenticator spotifyID spotifySecret redirectURL scopes).AuthURL state =
      (AuthURL,
        [("client_id", spotifyID),
         ("redirect_uri", redirectURL),
         ("scope", String.intercalate " " scopes),
         ("state", state)]) := rfl

/-- Claim C6: `SetAuthInfo` followed by `AuthURL` yields a URL whose
`client_id` query parameter is the newly set identifier. -/
theorem setAuthInfo_authURL_reflects_clientID
    (a : Authenticator) (clientID secretKey state : String) :
    Values.get ((a.SetAuthInfo clientID secretKey).AuthURL state).2 "client_id" =
      clientID := rfl

/-- Claim C7: `SetAuthInfo` changes only the stored client identifier
and secret; the redirect URL, the scopes and the two endpoint URLs are
unchanged. -/
theorem setAuthInfo_frame (a : Authenticator) (clientID secretKey : String) :
    (a.SetAuthInfo clientID secretKey).config.ClientID = clientID ∧
    (a.SetAuthInfo clientID secretKey).config.ClientSecret = secretKey ∧
    (a.SetAuthInfo clientID secretKey).config.RedirectURL = a.config.RedirectURL ∧
    (a.SetAuthInfo clientID secretKey).config.Scopes = a.config.Scopes ∧
    (a.SetAuthInfo clientID secretKey).config.Endpoint.AuthURL =
      a.config.Endpoint.AuthURL ∧
    (a.SetAuthInfo clientID secretKey).config.Endpoint.TokenURL =
      a.config.Endpoint.TokenURL :=
  ⟨rfl, rfl, rfl, rfl, rfl, rfl⟩

/-- Counterexample to claim C1 as stated: at the concrete callback
`error=denied&code=c&state=t` checked against expected state `s`, the
state mismatches, yet `Token` returns the authorization-denied error,
not the state-mismatch error (the `error` check runs first). -/
theorem token_state_mismatch_claim_counterexample :
    Values.get [("error", "denied"), ("code", "c"), ("state", "t")] "state" ≠ "s" ∧
    (Authenticator.Token stubExchange sampleAuth "s"
        [("error", "denied"), ("code", "c"), ("state", "t")]).1 =
      Except.error "spotify: auth failed - denied" ∧
    (Authenticator.Token stubExchange sampleAuth "s"
        [("error", "denied"), ("code", "c"), ("state", "t")]).1 ≠
      Except.error "spotify: redirect state parameter doesn't match" := by
  refine ⟨by decide, rfl, ?_⟩
  intro h
  exact absurd (Except.error.inj h) (by decide)

/-- Claim C1 amended: whenever the callback's `state` differs from the
expected state, `Token` fails with some error and never invokes the
network exchange; the error is the state-mismatch error when,
additionally, the `error` parameter is empty or absent and `code` is
non-empty (otherwise the earlier `error`/`code` check's error is
returned instead). -/
theorem token_state_mismatch_rejected
    (ex : Config → String → Except String Tok) (a : Authenticator)
    (state : String) (vs : Values) (h : Values.get vs "state" ≠ state) :
    (Authenticator.Token ex a state vs).2 = 0 ∧
    (∃ m, (Authenticator.Token ex a state vs).1 = Except.error m) ∧
    (Values.get vs "error" = "" → Values.get vs "code" ≠ "" →
      (Authenticator.Token ex a state vs).1 =
        Except.error "spotify: redirect state parameter doesn't match") := by
  by_cases he : Values.get vs "error" = "" <;>
    by_cases hc : Values.get vs "code" = "" <;>
      simp [Authenticator.Token, he, hc, h]

/-- Witness for the amended claim C1 at the concrete mismatched callback
`code=ABC&state=other` checked against expected state `xyz`. -/
theorem token_state_mismatch_rejected_witness :
    (Authenticator.Token stubExchange sampleAuth "xyz"
        [("code", "ABC"), ("state", "other")]).2 = 0 ∧
    (∃ m, (Authenticator.Token stubExchange sampleAuth "xyz"
        [("code", "ABC"), ("state", "other")]).1 = Except.error m) ∧
    (Values.get [("code", "ABC"), ("state", "other")] "error" = "" →
      Values.get [("code", "ABC"), ("state", "other")] "code" ≠ "" →
      (Authenticator.Token stubExchange sampleAuth "xyz"
          [("code", "ABC"), ("state", "other")]).1 =
        Except.error "spotify: redirect state parameter doesn't match") :=
  token_state_mismatch_rejected stubExchange sampleAuth "xyz"
    [("code", "ABC"), ("state", "other")] (by decide)

/-- Counterexample to claim C4 as stated: at the concrete callback
`error=denied` with no `code` parameter, `Token` returns the
authorization-denied error, not the missing-code error (the `error`
check runs first). -/
theorem token_missing_code_claim_counterexample :
    Values.get [("error", "denied")] "code" = "" ∧
    (Authenticator.Token stubExchange sampleAuth "s" [("error", "denied")]).1 =
      Except.error "spotify: auth failed - denied" ∧
    (Authenticator.Token stubExchange sampleAuth "s" [("error", "denied")]).1 ≠
      Except.error "spotify: didn't get access code" := by
  refine ⟨by decide, rfl, ?_⟩
  intro h
  exact absurd (Except.error.inj h) (by decide)

/-- Claim C4 amended: whenever the callback's `code` is empty or absent,
`Token` fails with some error and never invokes the network exchange;
the error is the missing-code error when, additionally, the `error`
parameter is empty or absent (otherwise the authorization-denied error
is returned instead). -/
theorem token_missing_code_rejected
    (ex : Config → String → Except String Tok) (a : Authenticator)
    (state : String) (vs : Values) (hc : Values.get vs "code" = "") :
    (Authenticator.Token ex a state vs).2 = 0 ∧
    (∃ m, (Authenticator.Token ex a state vs).1 = Except.error m) ∧
    (Values.get vs "error" = "" →
      (Authenticator.Token ex a state vs).1 =
        Except.error "spotify: didn't get access code") := by
  by_cases he : Values.get vs "error" = "" <;>
    simp [Authenticator.Token, he, hc]

/-- Witness for the amended claim C4 at the concrete callback
`state=xyz` with no `code` parameter. -/
theorem token_missing_code_rejected_witness :
    (Authenticator.Token stubExchange sampleAuth "xyz" [("state", "xyz")]).2 = 0 ∧
    (∃ m, (Authenticator.Token stubExchange sampleAuth "xyz"
        [("state", "xyz")]).1 = Except.error m) ∧
    (Values.get [("state", "xyz")] "error" = "" →
      (Authenticator.Token stubExchange sampleAuth "xyz" [("state", "xyz")]).1 =
        Except.error "spotify: didn't get access code") :=
  token_missing_code_rejected stubExchange sampleAuth "xyz"
    [("state", "xyz")] (by decide)

end Spotify
